import Mathlib

/-!
Shallow embedding of the property-management backend (Express + SQLite,
`src/unnamed/part_000`).  Tables are lists of rows; SQLite AUTOINCREMENT
rowids are explicit per-table counters.  Request bodies carry parsed JSON
values: numeric fields as `Option Int` (absent = `undefined`), string
fields as `Option String`.  JavaScript truthiness (`!x`) is modelled by
`truthyNum` / `truthyStr` / `truthyNat` (absent, `0` and `""` are falsy).
External libraries (jwt, `Date.parse`) are out of scope per the spec and
enter as explicit function parameters of the handlers that use them.
-/

namespace PropMgmt

/-- JSON body value for fields whose runtime type varies (e.g. the admin
confirmation field, which a client could send as a boolean flag). -/
inductive BodyVal where
  | null
  | bool (b : Bool)
  | num (n : Int)
  | str (s : String)
deriving DecidableEq

/-- Shape of a JSON response: HTTP status plus the body fields used by the
handlers under study (`error`, `code`, `message`, `id`). -/
structure ApiResponse where
  status : Nat
  error : Option String
  code : Option String
  message : Option String
  id : Option Nat
deriving DecidableEq

/-- Response `res.status(s).json(\x7b error: e \x7d)`. -/
def jsonErr (s : Nat) (e : String) : ApiResponse :=
  ⟨s, some e, none, none, none⟩

/-- Response `res.status(s).json(\x7b error: e, code: c \x7d)`. -/
def jsonErrCode (s : Nat) (e c : String) : ApiResponse :=
  ⟨s, some e, some c, none, none⟩

/-- Response `res.json(\x7b message: m \x7d)` (status 200). -/
def jsonMsg (m : String) : ApiResponse :=
  ⟨200, none, none, some m, none⟩

/-- Response `res.json(\x7b id: i, message: m \x7d)` (status 200). -/
def jsonIdMsg (i : Nat) (m : String) : ApiResponse :=
  ⟨200, none, none, some m, some i⟩

/-- Response `res.json(row)`: status 200; we record the row id. -/
def jsonRow (i : Nat) : ApiResponse :=
  ⟨200, none, none, none, some i⟩

/-- JavaScript truthiness of an optional number (absent and 0 are falsy). -/
def truthyNum : Option Int → Bool
  | none => false
  | some n => n != 0

/-- JavaScript truthiness of an optional id (absent and 0 are falsy). -/
def truthyNat : Option Nat → Bool
  | none => false
  | some n => n != 0

/-- JavaScript truthiness of an optional string (absent and "" are falsy). -/
def truthyStr : Option String → Bool
  | none => false
  | some s => s != ""

/-- The idiom `x || null` applied to an optional string field. -/
def strOrNull (o : Option String) : Option String :=
  if truthyStr o then o else none

/-- The idiom `x || null` applied to an optional numeric field. -/
def numOrNull (o : Option Int) : Option Int :=
  if truthyNum o then o else none

/-- The idiom `x || d` for a string field with a default (e.g. currency). -/
def strOrDefault (o : Option String) (d : String) : String :=
  if truthyStr o then o.getD "" else d

/-- Row of the `properties` table. -/
structure Property where
  id : Nat
  user_id : Nat
  name : String
  address : String
  ptype : String
  bedrooms : Option Int
  bathrooms : Option Int
  square_feet : Option Int
  rent_amount : Option Int
  currency : String
  status : String
  electricity_number : Option String
  water_number : Option String
deriving DecidableEq

/-- Row of the `tenants` table. -/
structure Tenant where
  id : Nat
  user_id : Nat
  first_name : String
  last_name : Option String
  email : String
  phone : Option String
  nationality : Option String
  property_id : Option Nat
  lease_start : Option String
  lease_end : Option String
  rent_amount : Option Int
  currency : String
  status : String
  free_month_type : Option String
  free_month_date : Option String
deriving DecidableEq

/-- Row of the `cheques` table (owned transitively through its tenant). -/
structure Cheque where
  id : Nat
  tenant_id : Nat
  cheque_number : Option String
  bank_name : Option String
  date : Option String
  amount : Option Int
  is_security : Nat
deriving DecidableEq

/-- Row of the `maintenance_requests` table. -/
structure MaintenanceRequest where
  id : Nat
  user_id : Nat
  property_id : Option Nat
  tenant_id : Option Nat
  title : String
  description : Option String
  priority : String
  status : String
deriving DecidableEq

/-- Row of the `financial_records` table. -/
structure FinancialRecord where
  id : Nat
  user_id : Nat
  property_id : Option Nat
  tenant_id : Option Nat
  ftype : String
  amount : Int
  currency : String
  description : String
  date : String
deriving DecidableEq

/-- Row of the `rent_tracking` table. -/
structure RentTrackingEntry where
  id : Nat
  user_id : Nat
  property_id : Nat
  tenant_id : Nat
  rent_month : String
  due_date : String
  total_amount : Int
  currency : String
  payment_method : String
  payment_amount : Int
  payment_date : String
  cash_received_by : Option String
  cash_receipt_number : Option String
  cheque_number : Option String
  cheque_bank : Option String
  cheque_date : Option String
  cheque_status : String
  online_reference : Option String
  online_bank : Option String
  partial_reason : Option String
  partial_balance : Int
  partial_notes : Option String
  notes : Option String
deriving DecidableEq

/-- The relational store: one list per table (insertion order = rowid
order) plus the per-table AUTOINCREMENT counters. -/
structure DB where
  properties : List Property
  tenants : List Tenant
  cheques : List Cheque
  maintenance : List MaintenanceRequest
  financial : List FinancialRecord
  rentTracking : List RentTrackingEntry
  nextPropertyId : Nat
  nextTenantId : Nat
  nextChequeId : Nat
  nextMaintenanceId : Nat
  nextFinancialId : Nat
  nextRentTrackingId : Nat
deriving DecidableEq

/-! ### Authentication middleware (`authenticateToken`) -/

/-- Outcome of the external `jwt.verify` call: failure with
`err.name === "TokenExpiredError"`, failure with any other error
(invalid signature etc.), or success carrying the decoded user id. -/
inductive VerifyResult where
  | expiredErr
  | otherErr
  | ok (userId : Nat)
deriving DecidableEq

/-- Result of the middleware: an error response, or control passed to the
route handler with `req.user` set. -/
inductive AuthOutcome where
  | reject (r : ApiResponse)
  | proceed (userId : Nat)
deriving DecidableEq

/-- The `authenticateToken` middleware: missing bearer token rejects 401;
`jwt.verify` failure rejects 401 with code TOKEN_EXPIRED when the error is
`TokenExpiredError` and 403 otherwise; success calls `next()`. -/
def authenticateToken (token : Option String) (verify : String → VerifyResult) :
    AuthOutcome :=
  match token with
  | none => .reject (jsonErr 401 "Access token required")
  | some t =>
    match verify t with
    | .expiredErr => .reject (jsonErrCode 401 "Token expired" "TOKEN_EXPIRED")
    | .otherErr => .reject (jsonErr 403 "Invalid token")
    | .ok u => .proceed u

/-! ### Property routes -/

/-- Request body of the property create/update endpoints. -/
structure PropertyBody where
  name : Option String
  address : Option String
  ptype : Option String
  bedrooms : Option Int
  bathrooms : Option Int
  square_feet : Option Int
  rent_amount : Option Int
  currency : Option String
  status : Option String
  electricity_number : Option String
  water_number : Option String
deriving DecidableEq

/-- SQL row match `id = ? AND user_id = ?` used by every per-row property
query. -/
def propertyMatches (pid userId : Nat) (p : Property) : Bool :=
  p.id == pid && p.user_id == userId

/-- GET /api/properties/:id — `SELECT * FROM properties WHERE id = ? AND
user_id = ?`; no row gives 404 "Property not found". -/
def getPropertyById (userId pid : Nat) (db : DB) : ApiResponse :=
  match db.properties.find? (propertyMatches pid userId) with
  | none => jsonErr 404 "Property not found"
  | some row => jsonRow row.id

/-- Column assignments of the property UPDATE statement. -/
def applyPropertyUpdate (b : PropertyBody) (p : Property) : Property :=
  { p with
    name := b.name.getD ""
    address := b.address.getD ""
    ptype := b.ptype.getD ""
    bedrooms := b.bedrooms
    bathrooms := b.bathrooms
    square_feet := b.square_feet
    rent_amount := b.rent_amount
    currency := strOrDefault b.currency "USD"
    status := b.status.getD ""
    electricity_number := strOrNull b.electricity_number
    water_number := strOrNull b.water_number }

/-- PUT /api/properties/:id — UPDATE ... WHERE id AND user_id; zero
changed rows gives 404.  The handler touches only the `properties` table:
it has no tenant side effect. -/
def putProperty (userId pid : Nat) (b : PropertyBody) (db : DB) :
    ApiResponse × DB :=
  let updated := db.properties.map
    (fun p => if propertyMatches pid userId p then applyPropertyUpdate b p else p)
  if db.properties.countP (propertyMatches pid userId) == 0 then
    (jsonErr 404 "Property not found or access denied", db)
  else
    (jsonMsg "Property updated successfully", { db with properties := updated })

/-- POST /api/properties/:id/update-tenants-vacant — `UPDATE tenants SET
status = ? WHERE property_id = ? AND user_id = ?` with status "expired". -/
def updateTenantsVacant (userId pid : Nat) (db : DB) : ApiResponse × DB :=
  let changes := db.tenants.countP
    (fun t => t.property_id == some pid && t.user_id == userId)
  let updated := db.tenants.map
    (fun t =>
      if t.property_id == some pid && t.user_id == userId then
        { t with status := "expired" }
      else t)
  (jsonMsg ("Updated " ++ toString changes ++ " tenants to expired status"),
   { db with tenants := updated })

/-- DELETE /api/properties/:id — DELETE ... WHERE id AND user_id; zero
changed rows gives 404. -/
def deleteProperty (userId pid : Nat) (db : DB) : ApiResponse × DB :=
  let remaining := db.properties.filter (fun p => !(propertyMatches pid userId p))
  if db.properties.countP (propertyMatches pid userId) == 0 then
    (jsonErr 404 "Property not found or access denied", db)
  else
    (jsonMsg "Property deleted successfully", { db with properties := remaining })

/-! ### Maintenance delete route -/

/-- SQL row match `id = ? AND user_id = ?` on `maintenance_requests`. -/
def maintenanceMatches (mid userId : Nat) (m : MaintenanceRequest) : Bool :=
  m.id == mid && m.user_id == userId

/-- DELETE /api/maintenance/:id.  `mid` is the parsed route id (the
handler's `isNaN(parseInt(id))` branch corresponds to an unparseable id
and is outside this model).  A falsy `userId` (0) is rejected 401; a
missing row 404; a row whose status is not "completed" 400; otherwise the
row is deleted. -/
def maintenanceDelete (userId mid : Nat) (db : DB) : ApiResponse × DB :=
  if userId == 0 then
    (jsonErr 401 "Authentication required", db)
  else
    match db.maintenance.find? (maintenanceMatches mid userId) with
    | none => (jsonErr 404 "Maintenance request not found or access denied", db)
    | some row =>
      if row.status != "completed" then
        (jsonErr 400 "Only completed maintenance requests can be deleted", db)
      else
        let remaining := db.maintenance.filter (fun m => !(maintenanceMatches mid userId m))
        if db.maintenance.countP (maintenanceMatches mid userId) == 0 then
          (jsonErr 404 "Maintenance request not found or access denied",
           { db with maintenance := remaining })
        else
          (jsonMsg "Maintenance request deleted successfully",
           { db with maintenance := remaining })

/-! ### Tenant update route (nested cheque replacement) -/

/-- One element of the client-supplied cheque list. -/
structure ChequeInput where
  cheque_number : Option String
  bank_name : Option String
  date : Option String
  amount : Option Int
  is_security : Bool
deriving DecidableEq

/-- Request body of PUT /api/tenants/:id.  `cheques := some l` models a
present array (a present empty array is truthy in JavaScript, so it still
triggers the cheque replacement); `none` models an absent field. -/
structure TenantBody where
  first_name : Option String
  last_name : Option String
  email : Option String
  phone : Option String
  nationality : Option String
  property_id : Option Nat
  lease_start : Option String
  lease_end : Option String
  rent_amount : Option Int
  currency : Option String
  free_month_type : Option String
  free_month_date : Option String
  cheques : Option (List ChequeInput)
deriving DecidableEq

/-- The email regular expression of the tenant routes,
`^[^\s@]+@[^\s@]+\.[^\s@]+$`: no whitespace, exactly one `@` with a
nonempty local part, and the domain part contains a dot that is neither
its first nor its last character. -/
def emailMatches (s : String) : Bool :=
  let cs := s.toList
  cs.count '@' == 1 &&
  cs.all (fun c => !c.isWhitespace) &&
  (cs.takeWhile (fun c => c != '@') != []) &&
  (let domain := (cs.dropWhile (fun c => c != '@')).drop 1
   domain != [] && ((domain.drop 1).dropLast.contains '.'))

/-- SQL row match `id = ? AND user_id = ?` on `tenants`. -/
def tenantMatches (tid userId : Nat) (t : Tenant) : Bool :=
  t.id == tid && t.user_id == userId

/-- Column assignments of the tenant UPDATE statement (status is not in
its column list, so it is preserved). -/
def applyTenantUpdate (b : TenantBody) (t : Tenant) : Tenant :=
  { t with
    first_name := b.first_name.getD ""
    last_name := b.last_name
    email := b.email.getD ""
    phone := strOrNull b.phone
    nationality := strOrNull b.nationality
    property_id := if truthyNat b.property_id then b.property_id else none
    lease_start := strOrNull b.lease_start
    lease_end := strOrNull b.lease_end
    rent_amount := if truthyNum b.rent_amount then b.rent_amount else none
    currency := strOrDefault b.currency "USD"
    free_month_type := strOrNull b.free_month_type
    free_month_date := strOrNull b.free_month_date }

/-- Sequential `stmt.run` inserts of `updateCheques`: element `i` of the
list is inserted unless the store reports an error for it (`failAt i`,
which the source only logs).  Returns the inserted rows in order together
with the next rowid. -/
def insertChequeRows (tid : Nat) :
    List ChequeInput → Nat → Nat → (Nat → Bool) → List Cheque × Nat
  | [], _, nid, _ => ([], nid)
  | c :: rest, i, nid, failAt =>
    if failAt i then
      insertChequeRows tid rest (i + 1) nid failAt
    else
      let tail := insertChequeRows tid rest (i + 1) (nid + 1) failAt
      (⟨nid, tid, strOrNull c.cheque_number, strOrNull c.bank_name,
        strOrNull c.date, numOrNull c.amount,
        if c.is_security then 1 else 0⟩ :: tail.1, tail.2)

/-- PUT /api/tenants/:id.  Validates required fields and email shape,
runs the UPDATE (404 when no row matches), then — when a cheque list is
supplied — `updateCheques`: DELETE all cheques of the tenant, then insert
the supplied list, insert failures being logged only. -/
def tenantPut (userId tid : Nat) (b : TenantBody) (failAt : Nat → Bool) (db : DB) :
    ApiResponse × DB :=
  if !(truthyStr b.first_name && truthyStr b.last_name && truthyStr b.email) then
    (jsonErr 400 "First name, last name, and email are required", db)
  else if !emailMatches (b.email.getD "") then
    (jsonErr 400 "Invalid email format", db)
  else
    let updated := db.tenants.map
      (fun t => if tenantMatches tid userId t then applyTenantUpdate b t else t)
    if db.tenants.countP (tenantMatches tid userId) == 0 then
      (jsonErr 404 "Tenant not found or access denied", db)
    else
      match b.cheques with
      | some l =>
        let kept := db.cheques.filter (fun c => !(c.tenant_id == tid))
        let inserted := insertChequeRows tid l 0 db.nextChequeId failAt
        (jsonMsg "Tenant updated successfully with cheques",
         { db with tenants := updated, cheques := kept ++ inserted.1,
                   nextChequeId := inserted.2 })
      | none =>
        (jsonMsg "Tenant updated successfully", { db with tenants := updated })

/-! ### Rent tracking routes -/

/-- Request body of the rent-tracking create/update endpoints.  Ids are
parsed integers (`parseInt`), amounts parsed numbers (`parseFloat`); the
claims under study use integral amounts, modelled in `Int`. -/
structure RentBody where
  property_id : Option Nat
  tenant_id : Option Nat
  rent_month : Option String
  due_date : Option String
  total_amount : Option Int
  currency : Option String
  payment_method : Option String
  payment_amount : Option Int
  payment_date : Option String
  cash_received_by : Option String
  cash_receipt_number : Option String
  cheque_number : Option String
  cheque_bank : Option String
  cheque_date : Option String
  cheque_status : Option String
  online_reference : Option String
  online_bank : Option String
  partial_reason : Option String
  partial_balance : Option Int
  partial_notes : Option String
  notes : Option String
deriving DecidableEq

/-- The required-field truthiness test shared by the rent-tracking create
and update handlers. -/
def rtRequiredOk (b : RentBody) : Bool :=
  truthyNat b.property_id && truthyNat b.tenant_id && truthyStr b.rent_month &&
  truthyStr b.due_date && truthyNum b.total_amount && truthyStr b.payment_method &&
  truthyNum b.payment_amount && truthyStr b.payment_date

/-- JavaScript `s.charAt(0).toUpperCase() + s.slice(1)`. -/
def capitalizeFirst (s : String) : String :=
  match s.toList with
  | [] => ""
  | c :: cs => String.mk (c.toUpper :: cs)

/-- The rent-tracking row built by the INSERT of the create handler. -/
def mkRentEntry (userId : Nat) (b : RentBody) (db : DB) : RentTrackingEntry :=
  { id := db.nextRentTrackingId
    user_id := userId
    property_id := b.property_id.getD 0
    tenant_id := b.tenant_id.getD 0
    rent_month := b.rent_month.getD ""
    due_date := b.due_date.getD ""
    total_amount := b.total_amount.getD 0
    currency := strOrDefault b.currency "USD"
    payment_method := b.payment_method.getD ""
    payment_amount := b.payment_amount.getD 0
    payment_date := b.payment_date.getD ""
    cash_received_by := strOrNull b.cash_received_by
    cash_receipt_number := strOrNull b.cash_receipt_number
    cheque_number := strOrNull b.cheque_number
    cheque_bank := strOrNull b.cheque_bank
    cheque_date := strOrNull b.cheque_date
    cheque_status := strOrDefault b.cheque_status "pending"
    online_reference := strOrNull b.online_reference
    online_bank := strOrNull b.online_bank
    partial_reason := strOrNull b.partial_reason
    partial_balance := if truthyNum b.partial_balance then b.partial_balance.getD 0 else 0
    partial_notes := strOrNull b.partial_notes
    notes := strOrNull b.notes }

/-- The correlated financial record built inside the rent-tracking insert
callback. -/
def mkRentFinancialRecord (userId : Nat) (b : RentBody) (db : DB) : FinancialRecord :=
  { id := db.nextFinancialId
    user_id := userId
    property_id := some (b.property_id.getD 0)
    tenant_id := some (b.tenant_id.getD 0)
    ftype := if b.payment_method.getD "" == "partial" then "partial_rent" else "rent"
    amount := b.payment_amount.getD 0
    currency := strOrDefault b.currency "USD"
    description := capitalizeFirst (b.payment_method.getD "") ++ " payment for " ++
      b.rent_month.getD ""
    date := b.payment_date.getD "" }

/-- POST /api/rent-tracking.  Validation order as in the source: required
fields, positive total, positive payment, payment not exceeding total,
date parse (`dateOk` models the external `Date.parse`), property
ownership, tenant ownership; then the rent-tracking INSERT followed by
the correlated financial INSERT, the response being sent from the second
callback with its `lastID`. -/
def rtCreate (userId : Nat) (b : RentBody) (dateOk : String → Bool) (db : DB) :
    ApiResponse × DB :=
  if !rtRequiredOk b then
    (jsonErr 400 "Missing required fields", db)
  else if b.total_amount.getD 0 ≤ 0 then
    (jsonErr 400 "Total amount must be a positive number", db)
  else if b.payment_amount.getD 0 ≤ 0 then
    (jsonErr 400 "Payment amount must be a positive number", db)
  else if b.total_amount.getD 0 < b.payment_amount.getD 0 then
    (jsonErr 400 "Payment amount cannot exceed total amount", db)
  else if !(dateOk (b.due_date.getD "") && dateOk (b.payment_date.getD "")) then
    (jsonErr 400 "Invalid date format", db)
  else
    match db.properties.find? (propertyMatches (b.property_id.getD 0) userId) with
    | none => (jsonErr 400 "Property not found or access denied", db)
    | some _ =>
      match db.tenants.find? (tenantMatches (b.tenant_id.getD 0) userId) with
      | none => (jsonErr 400 "Tenant not found or access denied", db)
      | some _ =>
        (jsonIdMsg db.nextFinancialId "Rent payment tracked successfully",
         { db with
            rentTracking := db.rentTracking ++ [mkRentEntry userId b db]
            financial := db.financial ++ [mkRentFinancialRecord userId b db]
            nextRentTrackingId := db.nextRentTrackingId + 1
            nextFinancialId := db.nextFinancialId + 1 })

/-- SQL row match `id = ? AND user_id = ?` on `rent_tracking`. -/
def rentMatches (rid userId : Nat) (r : RentTrackingEntry) : Bool :=
  r.id == rid && r.user_id == userId

/-- Column assignments of the rent-tracking UPDATE statement. -/
def applyRentUpdate (b : RentBody) (r : RentTrackingEntry) : RentTrackingEntry :=
  { r with
    property_id := b.property_id.getD 0
    tenant_id := b.tenant_id.getD 0
    rent_month := b.rent_month.getD ""
    due_date := b.due_date.getD ""
    total_amount := b.total_amount.getD 0
    currency := strOrDefault b.currency "USD"
    payment_method := b.payment_method.getD ""
    payment_amount := b.payment_amount.getD 0
    payment_date := b.payment_date.getD ""
    cash_received_by := strOrNull b.cash_received_by
    cash_receipt_number := strOrNull b.cash_receipt_number
    cheque_number := strOrNull b.cheque_number
    cheque_bank := strOrNull b.cheque_bank
    cheque_date := strOrNull b.cheque_date
    cheque_status := strOrDefault b.cheque_status "pending"
    online_reference := strOrNull b.online_reference
    online_bank := strOrNull b.online_bank
    partial_reason := strOrNull b.partial_reason
    partial_balance := if truthyNum b.partial_balance then b.partial_balance.getD 0 else 0
    partial_notes := strOrNull b.partial_notes
    notes := strOrNull b.notes }

/-- PUT /api/rent-tracking/:id.  Same validation prefix as the create
handler, then UPDATE ... WHERE id AND user_id (404 on zero changes). -/
def rtUpdate (userId rid : Nat) (b : RentBody) (dateOk : String → Bool) (db : DB) :
    ApiResponse × DB :=
  if !rtRequiredOk b then
    (jsonErr 400 "Missing required fields", db)
  else if b.total_amount.getD 0 ≤ 0 then
    (jsonErr 400 "Total amount must be a positive number", db)
  else if b.payment_amount.getD 0 ≤ 0 then
    (jsonErr 400 "Payment amount must be a positive number", db)
  else if b.total_amount.getD 0 < b.payment_amount.getD 0 then
    (jsonErr 400 "Payment amount cannot exceed total amount", db)
  else if !(dateOk (b.due_date.getD "") && dateOk (b.payment_date.getD "")) then
    (jsonErr 400 "Invalid date format", db)
  else
    let updated := db.rentTracking.map
      (fun r => if rentMatches rid userId r then applyRentUpdate b r else r)
    if db.rentTracking.countP (rentMatches rid userId) == 0 then
      (jsonErr 404 "Rent tracking record not found or access denied", db)
    else
      (jsonMsg "Rent tracking record updated successfully",
       { db with rentTracking := updated })

/-- GET /api/rent-tracking/:id — lookup by `rt.id = ? AND rt.user_id = ?`;
no row gives 404. -/
def rtGet (userId rid : Nat) (db : DB) : ApiResponse :=
  match db.rentTracking.find? (rentMatches rid userId) with
  | none => jsonErr 404 "Rent tracking record not found or access denied"
  | some r => jsonRow r.id

/-! ### Bulk spreadsheet upload routes

Sheets arrive as `sheet_to_json(..., \x7b header: 1 \x7d)`: a list of rows,
each a list of cells.  Cells are modelled as strings (numeric cells as
their decimal rendering, parsed again on insert); an absent cell is an
empty string inside a row, and a JavaScript `undefined` read past the end
of the header row renders as "undefined" in the error message, which
`headerAt` reproduces. -/

/-- Bulk-endpoint response: status, error, summary message, success and
error counts, per-row error messages. -/
structure BulkResponse where
  status : Nat
  error : Option String
  message : Option String
  successCount : Option Nat
  errorCount : Option Nat
  errors : List String
deriving DecidableEq

/-- Bulk error response `res.status(s).json(\x7b error: e \x7d)`. -/
def bulkErr (s : Nat) (e : String) : BulkResponse :=
  ⟨s, some e, none, none, none, []⟩

/-- Expected ordinal header of POST /api/bulk-upload/properties. -/
def expectedPropertyColumns : List String :=
  ["Name", "Address", "Type", "Status", "Bedrooms", "Bathrooms",
   "Electricity Number", "Water Number", "Square Feet", "Rent Amount", "Currency"]

/-- Expected ordinal header of POST /api/bulk-upload/tenants. -/
def expectedTenantColumns : List String :=
  ["First Name", "Last Name", "Email", "Phone", "Property Name",
   "Rent Amount", "Currency", "Lease Start Date", "Lease End Date"]

/-- Expected ordinal header of POST /api/bulk-upload/combined. -/
def expectedCombinedColumns : List String :=
  ["Property Name", "Property Address", "Property Type", "Property Status",
   "Bedrooms", "Bathrooms", "Electricity Number", "Water Number", "Square Feet",
   "Property Rent Amount", "Property Currency", "Tenant First Name",
   "Tenant Last Name", "Tenant Email", "Tenant Phone", "Tenant Rent Amount",
   "Lease Start Date", "Lease End Date"]

/-- `headers[i]` as it renders in the error message (reads past the end
of the header row render as "undefined"). -/
def headerAt (headers : List String) (i : Nat) : String :=
  (headers[i]?).getD "undefined"

/-- The header-validation loop: first index at which the header row
differs from the expected column list, with the expected and actual cell. -/
def findHeaderMismatch : List String → List String → Option (Nat × String × String)
  | [], _ => none
  | e :: es, hs =>
    let h := (hs.head?).getD "undefined"
    if h != e then
      some (0, e, h)
    else
      (findHeaderMismatch es (hs.drop 1)).map (fun r => (r.1 + 1, r.2.1, r.2.2))

/-- The 400 response built from a header mismatch. -/
def headerErrResp (i : Nat) (expectedCol gotCol : String) : BulkResponse :=
  bulkErr 400 ("Invalid header at column " ++ toString (i + 1) ++ ". Expected \"" ++
    expectedCol ++ "\", got \"" ++ gotCol ++ "\"")

/-- Empty cells are falsy (`!name` etc. in the row validators). -/
def truthyCell (s : String) : Bool :=
  s != ""

/-- Cell inserted as `cell || null` for a nullable text column. -/
def cellOrNull (s : String) : Option String :=
  if truthyCell s then some s else none

/-- Cell inserted as `cell || null` for a numeric column; spreadsheet
numbers are modelled as decimal strings parsed here. -/
def cellNumOrNull (s : String) : Option Int :=
  if truthyCell s then s.toInt? else none

/-- SQLite comparison `column = ?` where the parameter is
`cell || null`: NULL compares false against everything. -/
def sqlEqOpt (column : Option String) (param : Option String) : Bool :=
  match column, param with
  | some x, some y => x == y
  | _, _ => false

/-- The duplicate test of the property-import row processing:
`user_id = ? AND name = ? AND (electricity_number = ? OR water_number = ?)
AND (electricity_number IS NOT NULL OR water_number IS NOT NULL)`. -/
def propertyDuplicate (userId : Nat) (name elec water : String) (p : Property) : Bool :=
  p.user_id == userId && p.name == name &&
  (sqlEqOpt p.electricity_number (cellOrNull elec) ||
   sqlEqOpt p.water_number (cellOrNull water)) &&
  (p.electricity_number.isSome || p.water_number.isSome)

/-- Row processing of the properties import: insufficient cells, missing
required cells and duplicates are recorded as row errors, valid rows are
inserted.  Returns success count, error count, error messages, new store. -/
def processPropertyRows (userId : Nat) :
    List (List String) → Nat → DB → Nat × Nat × List String × DB
  | [], _, db => (0, 0, [], db)
  | row :: rest, index, db =>
    let rowErr := fun (msg : String) =>
      let r := processPropertyRows userId rest (index + 1) db
      (r.1, r.2.1 + 1, ("Row " ++ toString (index + 2) ++ ": " ++ msg) :: r.2.2.1, r.2.2.2)
    if row.length < 11 then
      rowErr "Insufficient data"
    else
      let name := row.getD 0 ""
      let address := row.getD 1 ""
      let ptype := row.getD 2 ""
      if !(truthyCell name && truthyCell address && truthyCell ptype) then
        rowErr "Name, Address, and Type are required"
      else if db.properties.any (propertyDuplicate userId name (row.getD 6 "") (row.getD 7 "")) then
        rowErr ("Duplicate property found. Property with name \"" ++ name ++
          "\" and same electricity/water number already exists.")
      else
        let newRow : Property :=
          { id := db.nextPropertyId
            user_id := userId
            name := name
            address := address
            ptype := ptype
            bedrooms := cellNumOrNull (row.getD 4 "")
            bathrooms := cellNumOrNull (row.getD 5 "")
            square_feet := cellNumOrNull (row.getD 8 "")
            rent_amount := cellNumOrNull (row.getD 9 "")
            currency := if truthyCell (row.getD 10 "") then row.getD 10 "" else "USD"
            status := if truthyCell (row.getD 3 "") then row.getD 3 "" else "vacant"
            electricity_number := cellOrNull (row.getD 6 "")
            water_number := cellOrNull (row.getD 7 "") }
        let db2 := { db with properties := db.properties ++ [newRow],
                             nextPropertyId := db.nextPropertyId + 1 }
        let r := processPropertyRows userId rest (index + 1) db2
        (r.1 + 1, r.2.1, r.2.2.1, r.2.2.2)

/-- POST /api/bulk-upload/properties (after `authenticateToken` and the
multer file filter): minimum-size check, strict ordinal header check,
then per-row collect-and-continue processing. -/
def bulkUploadProperties (userId : Nat) (sheet : List (List String)) (db : DB) :
    BulkResponse × DB :=
  if sheet.length < 2 then
    (bulkErr 400 "File must contain at least a header row and one data row", db)
  else
    match findHeaderMismatch expectedPropertyColumns (sheet.headD []) with
    | some m => (headerErrResp m.1 m.2.1 m.2.2, db)
    | none =>
      let r := processPropertyRows userId (sheet.drop 1) 0 db
      (⟨200, none,
        some ("Upload completed. " ++ toString r.1 ++ " properties imported successfully."),
        some r.1, some r.2.1, r.2.2.1⟩, r.2.2.2)

/-- Row processing of the tenants import: property resolved by name
lookup; the row fails when no property matches. -/
def processTenantRows (userId : Nat) :
    List (List String) → Nat → DB → Nat × Nat × List String × DB
  | [], _, db => (0, 0, [], db)
  | row :: rest, index, db =>
    let rowErr := fun (msg : String) =>
      let r := processTenantRows userId rest (index + 1) db
      (r.1, r.2.1 + 1, ("Row " ++ toString (index + 2) ++ ": " ++ msg) :: r.2.2.1, r.2.2.2)
    if row.length < 9 then
      rowErr "Insufficient data"
    else
      let firstName := row.getD 0 ""
      let email := row.getD 2 ""
      let propertyName := row.getD 4 ""
      if !(truthyCell firstName && truthyCell email) then
        rowErr "First Name and Email are required"
      else
        match db.properties.find? (fun p => p.name == propertyName && p.user_id == userId) with
        | none => rowErr ("Property \"" ++ propertyName ++ "\" not found")
        | some property =>
          let newRow : Tenant :=
            { id := db.nextTenantId
              user_id := userId
              first_name := firstName
              last_name := cellOrNull (row.getD 1 "")
              email := email
              phone := cellOrNull (row.getD 3 "")
              nationality := none
              property_id := some property.id
              lease_start := cellOrNull (row.getD 7 "")
              lease_end := cellOrNull (row.getD 8 "")
              rent_amount := cellNumOrNull (row.getD 5 "")
              currency := if truthyCell (row.getD 6 "") then row.getD 6 "" else "USD"
              status := "active"
              free_month_type := none
              free_month_date := none }
          let db2 := { db with tenants := db.tenants ++ [newRow],
                               nextTenantId := db.nextTenantId + 1 }
          let r := processTenantRows userId rest (index + 1) db2
          (r.1 + 1, r.2.1, r.2.2.1, r.2.2.2)

/-- POST /api/bulk-upload/tenants. -/
def bulkUploadTenants (userId : Nat) (sheet : List (List String)) (db : DB) :
    BulkResponse × DB :=
  if sheet.length < 2 then
    (bulkErr 400 "File must contain at least a header row and one data row", db)
  else
    match findHeaderMismatch expectedTenantColumns (sheet.headD []) with
    | some m => (headerErrResp m.1 m.2.1 m.2.2, db)
    | none =>
      let r := processTenantRows userId (sheet.drop 1) 0 db
      (⟨200, none,
        some ("Upload completed. " ++ toString r.1 ++ " tenants imported successfully."),
        some r.1, some r.2.1, r.2.2.1⟩, r.2.2.2)

/-- Row processing of the combined import: a property insert and, when
tenant cells are populated, a dependent tenant insert referencing the
just-created property id.  Only the store mutation and count totals are
tracked (the endpoint's summary payload is presentation). -/
def processCombinedRows (userId : Nat) :
    List (List String) → DB → Nat × Nat × DB
  | [], db => (0, 0, db)
  | row :: rest, db =>
    if row.length < 18 then
      let r := processCombinedRows userId rest db
      (r.1, r.2.1 + 2, r.2.2)
    else
      let propertyName := row.getD 0 ""
      let propertyAddress := row.getD 1 ""
      let propertyType := row.getD 2 ""
      let tenantFirstName := row.getD 11 ""
      let tenantEmail := row.getD 13 ""
      let hasTenantData := truthyCell tenantFirstName || truthyCell tenantEmail
      let tenantFieldErr :=
        if hasTenantData && !(truthyCell tenantFirstName && truthyCell tenantEmail)
        then 1 else 0
      if !(truthyCell propertyName && truthyCell propertyAddress && truthyCell propertyType) then
        let r := processCombinedRows userId rest db
        (r.1, r.2.1 + 1 + tenantFieldErr, r.2.2)
      else if db.properties.any
          (propertyDuplicate userId propertyName (row.getD 6 "") (row.getD 7 "")) then
        let r := processCombinedRows userId rest db
        (r.1, r.2.1 + 1 + tenantFieldErr, r.2.2)
      else
        let propertyId := db.nextPropertyId
        let newProp : Property :=
          { id := propertyId
            user_id := userId
            name := propertyName
            address := propertyAddress
            ptype := propertyType
            bedrooms := cellNumOrNull (row.getD 4 "")
            bathrooms := cellNumOrNull (row.getD 5 "")
            square_feet := cellNumOrNull (row.getD 8 "")
            rent_amount := cellNumOrNull (row.getD 9 "")
            currency := if truthyCell (row.getD 10 "") then row.getD 10 "" else "USD"
            status := if truthyCell (row.getD 3 "") then row.getD 3 "" else "vacant"
            electricity_number := cellOrNull (row.getD 6 "")
            water_number := cellOrNull (row.getD 7 "") }
        let db2 := { db with properties := db.properties ++ [newProp],
                             nextPropertyId := db.nextPropertyId + 1 }
        if hasTenantData && truthyCell tenantFirstName && truthyCell tenantEmail then
          let newTenant : Tenant :=
            { id := db2.nextTenantId
              user_id := userId
              first_name := tenantFirstName
              last_name := cellOrNull (row.getD 12 "")
              email := tenantEmail
              phone := cellOrNull (row.getD 14 "")
              nationality := none
              property_id := some propertyId
              lease_start := cellOrNull (row.getD 16 "")
              lease_end := cellOrNull (row.getD 17 "")
              rent_amount := cellNumOrNull (row.getD 15 "")
              currency := if truthyCell (row.getD 10 "") then row.getD 10 "" else "USD"
              status := "active"
              free_month_type := none
              free_month_date := none }
          let db3 := { db2 with tenants := db2.tenants ++ [newTenant],
                                nextTenantId := db2.nextTenantId + 1 }
          let r := processCombinedRows userId rest db3
          (r.1 + 2, r.2.1 + tenantFieldErr, r.2.2)
        else
          let r := processCombinedRows userId rest db2
          (r.1 + 1, r.2.1 + tenantFieldErr, r.2.2)

/-- POST /api/bulk-upload/combined. -/
def bulkUploadCombined (userId : Nat) (sheet : List (List String)) (db : DB) :
    BulkResponse × DB :=
  if sheet.length < 2 then
    (bulkErr 400 "File must contain at least a header row and one data row", db)
  else
    match findHeaderMismatch expectedCombinedColumns (sheet.headD []) with
    | some m => (headerErrResp m.1 m.2.1 m.2.2, db)
    | none =>
      let r := processCombinedRows userId (sheet.drop 1) db
      (⟨200, none, some "Combined upload completed. ", some r.1, some r.2.1, []⟩, r.2.2)

/-! ### Admin destructive resets (after the `requireAdmin` middleware) -/

/-- POST /api/admin/reset-database: exact confirmation string
"RESET_ALL_DATA" required, else 400 and no deletion; on match all five
domain tables are emptied (the `users` table is preserved). -/
def adminResetDatabase (confirm : BodyVal) (db : DB) : ApiResponse × DB :=
  if confirm != BodyVal.str "RESET_ALL_DATA" then
    (jsonErr 400 "Confirmation required. Send \"RESET_ALL_DATA\" to confirm.", db)
  else
    (jsonMsg "Database reset successfully. All user data has been deleted.",
     { db with properties := [], tenants := [], maintenance := [],
               financial := [], rentTracking := [] })

/-- POST /api/admin/users/:id/reset-data: exact confirmation string
"RESET_USER_DATA" required, else 400 and no deletion; on match the rows
of the five domain tables owned by the target user are deleted. -/
def adminResetUserData (uid : Nat) (confirm : BodyVal) (db : DB) : ApiResponse × DB :=
  if confirm != BodyVal.str "RESET_USER_DATA" then
    (jsonErr 400 "Confirmation required. Send \"RESET_USER_DATA\" to confirm.", db)
  else
    (jsonMsg "User data reset successfully.",
     { db with
        properties := db.properties.filter (fun p => !(p.user_id == uid))
        tenants := db.tenants.filter (fun t => !(t.user_id == uid))
        maintenance := db.maintenance.filter (fun m => !(m.user_id == uid))
        financial := db.financial.filter (fun f => !(f.user_id == uid))
        rentTracking := db.rentTracking.filter (fun r => !(r.user_id == uid)) })

/-! ### Concrete fixtures used by witnesses and counterexamples -/

/-- A property owned by account 1, currently occupied. -/
def villaA : Property :=
  ⟨1, 1, "Villa A", "1 Rd", "villa", none, none, none, some 1000, "USD",
   "occupied", none, none⟩

/-- An active tenant of account 1 living in `villaA`. -/
def tenantBob : Tenant :=
  ⟨1, 1, "Bob", some "Smith", "bob@x.com", none, none, some 1, none, none,
   some 1000, "USD", "active", none, none⟩

/-- Small store for account 1: one occupied property, one active tenant.
The financial and rent-tracking rowid counters differ (7 vs 3). -/
def db0 : DB :=
  ⟨[villaA], [tenantBob], [], [], [], [], 2, 2, 1, 1, 7, 3⟩

/-- An empty store. -/
def dbEmpty : DB :=
  ⟨[], [], [], [], [], [], 1, 1, 1, 1, 1, 1⟩

/-- A pending maintenance request of account 1. -/
def mrPending : MaintenanceRequest :=
  ⟨1, 1, some 1, none, "Leak", none, "medium", "pending"⟩

/-- The same request in completed status. -/
def mrCompleted : MaintenanceRequest :=
  ⟨1, 1, some 1, none, "Leak", none, "medium", "completed"⟩

/-- Store holding the pending maintenance request. -/
def dbPending : DB :=
  { db0 with maintenance := [mrPending] }

/-- Store holding the completed maintenance request. -/
def dbCompleted : DB :=
  { db0 with maintenance := [mrCompleted] }

/-- Property update body that sets the status to vacant. -/
def vacantBody : PropertyBody :=
  ⟨some "Villa A", some "1 Rd", some "villa", none, none, none, some 1000,
   some "USD", some "vacant", none, none⟩

/-- Rent-tracking body of end-to-end scenario 3: payment 1200 over a
total of 1000. -/
def rentBody1200 : RentBody :=
  ⟨some 1, some 1, some "2024-01", some "2024-01-01", some 1000, some "USD",
   some "cash", some 1200, some "2024-01-05", none, none, none, none, none,
   none, none, none, none, none, none, none⟩

/-- Rent-tracking body of end-to-end scenario 4: a valid partial payment
of 400 over a total of 1000. -/
def rentBodyPartial : RentBody :=
  ⟨some 1, some 1, some "2024-01", some "2024-01-01", some 1000, some "USD",
   some "partial", some 400, some "2024-01-05", none, none, none, none, none,
   none, none, none, some "late salary", some 600, none, none⟩

/-- A dated cheque input. -/
def chq1 : ChequeInput :=
  ⟨some "001", some "BankA", some "2024-02-01", some 1000, false⟩

/-- An undated security cheque input. -/
def chq2 : ChequeInput :=
  ⟨none, none, none, none, true⟩

/-- Tenant update body supplying a two-cheque list. -/
def tenantBodyW : TenantBody :=
  ⟨some "Bob", some "Smith", some "bob@x.com", none, none, some 1, none, none,
   some 1000, some "USD", none, none, some [chq1, chq2]⟩

/-- Store whose tenant 1 already owns one cheque row. -/
def dbCh : DB :=
  { db0 with cheques := [⟨5, 1, some "old", none, none, none, 0⟩], nextChequeId := 6 }

/-- Properties sheet whose third header cell is misnamed ("Kind" instead
of "Type"), as in end-to-end scenario 5. -/
def sheetBadP : List (List String) :=
  [["Name", "Address", "Kind", "Status", "Bedrooms", "Bathrooms",
    "Electricity Number", "Water Number", "Square Feet", "Rent Amount", "Currency"],
   ["P1", "A1", "villa", "vacant", "", "", "", "", "", "", ""]]

/-- Tenants sheet whose first header cell is misnamed. -/
def sheetBadT : List (List String) :=
  [["FirstName", "Last Name", "Email", "Phone", "Property Name",
    "Rent Amount", "Currency", "Lease Start Date", "Lease End Date"],
   ["Bob", "Smith", "bob@x.com", "", "Villa A", "", "", "", ""]]

/-- Combined sheet whose second header cell is misnamed. -/
def sheetBadC : List (List String) :=
  [["Property Name", "Address", "Property Type", "Property Status",
    "Bedrooms", "Bathrooms", "Electricity Number", "Water Number", "Square Feet",
    "Property Rent Amount", "Property Currency", "Tenant First Name",
    "Tenant Last Name", "Tenant Email", "Tenant Phone", "Tenant Rent Amount",
    "Lease Start Date", "Lease End Date"],
   ["P1", "A1", "villa", "vacant", "", "", "", "", "", "", "", "", "", "", "", "", "", ""]]

/-! ## Theorems -/

/-- C9: the admin destructive resets (POST /api/admin/reset-database and
POST /api/admin/users/:id/reset-data) reject any request body whose
confirmation field is not the exact string "RESET_ALL_DATA" respectively
"RESET_USER_DATA" — including a truthy boolean flag — with a 400
validation error, deleting nothing. -/
theorem admin_reset_requires_exact_confirmation
    (ca cb : BodyVal) (uid : Nat) (db : DB)
    (h1 : ca ≠ BodyVal.str "RESET_ALL_DATA")
    (h2 : cb ≠ BodyVal.str "RESET_USER_DATA") :
    adminResetDatabase ca db =
      (jsonErr 400 "Confirmation required. Send \"RESET_ALL_DATA\" to confirm.", db) ∧
    adminResetUserData uid cb db =
      (jsonErr 400 "Confirmation required. Send \"RESET_USER_DATA\" to confirm.", db) := by
  constructor
  · simp [adminResetDatabase, h1]
  · simp [adminResetUserData, h2]

/-- C9 witness: a truthy boolean confirmation flag is rejected and the
store is untouched. -/
theorem admin_reset_requires_exact_confirmation_witness :
    adminResetDatabase (BodyVal.bool true) db0 =
      (jsonErr 400 "Confirmation required. Send \"RESET_ALL_DATA\" to confirm.", db0) ∧
    adminResetUserData 1 (BodyVal.bool true) db0 =
      (jsonErr 400 "Confirmation required. Send \"RESET_USER_DATA\" to confirm.", db0) :=
  admin_reset_requires_exact_confirmation (BodyVal.bool true) (BodyVal.bool true) 1 db0
    (by decide) (by decide)

/-- C5 counterexample: a token that fails verification with an error
other than expiry (e.g. an invalid signature) is rejected with HTTP 403,
not 401, contradicting the claim that every authentication failure is
surfaced as 401. -/
theorem invalid_token_rejected_403_not_401 :
    authenticateToken (some "sometoken") (fun _ => VerifyResult.otherErr) =
      AuthOutcome.reject (jsonErr 403 "Invalid token") ∧
    (jsonErr 403 "Invalid token").status ≠ 401 :=
  ⟨rfl, by decide⟩

/-- C5 amended: a missing token is rejected 401 "Access token required";
an expired token is rejected 401 with the machine-checkable code
TOKEN_EXPIRED; a token failing verification for any other reason is
rejected 403 "Invalid token". -/
theorem authenticate_token_status_codes
    (vfE vfI : String → VerifyResult) (tE tI : String)
    (hE : vfE tE = VerifyResult.expiredErr)
    (hI : vfI tI = VerifyResult.otherErr) :
    (∀ vf : String → VerifyResult,
      authenticateToken none vf = AuthOutcome.reject (jsonErr 401 "Access token required")) ∧
    authenticateToken (some tE) vfE =
      AuthOutcome.reject (jsonErrCode 401 "Token expired" "TOKEN_EXPIRED") ∧
    authenticateToken (some tI) vfI =
      AuthOutcome.reject (jsonErr 403 "Invalid token") := by
  refine ⟨fun vf => rfl, ?_, ?_⟩ <;> simp [authenticateToken, hE, hI]

/-- C5 amended witness at concrete verifier outcomes. -/
theorem authenticate_token_status_codes_witness :
    (∀ vf : String → VerifyResult,
      authenticateToken none vf = AuthOutcome.reject (jsonErr 401 "Access token required")) ∧
    authenticateToken (some "expired-token") (fun _ => VerifyResult.expiredErr) =
      AuthOutcome.reject (jsonErrCode 401 "Token expired" "TOKEN_EXPIRED") ∧
    authenticateToken (some "bad-signature") (fun _ => VerifyResult.otherErr) =
      AuthOutcome.reject (jsonErr 403 "Invalid token") :=
  authenticate_token_status_codes (fun _ => VerifyResult.expiredErr)
    (fun _ => VerifyResult.otherErr) "expired-token" "bad-signature" rfl rfl

/-- C3 counterexample: updating a property to vacant through
PUT /api/properties/:id succeeds, yet the active tenant referencing that
property keeps status "active" — the update handler itself performs no
tenant-expiry side effect. -/
theorem property_vacant_update_leaves_tenant_active :
    (putProperty 1 1 vacantBody db0).1 = jsonMsg "Property updated successfully" ∧
    (putProperty 1 1 vacantBody db0).2.properties.map Property.status = ["vacant"] ∧
    (putProperty 1 1 vacantBody db0).2.tenants = db0.tenants ∧
    ∃ t ∈ (putProperty 1 1 vacantBody db0).2.tenants,
      t.property_id = some 1 ∧ t.status = "active" ∧ t.status ≠ "expired" := by
  refine ⟨by decide, by decide, by decide, tenantBob, by decide, by decide, by decide, by decide⟩

/-- C3 amended: PUT /api/properties/:id never changes tenant rows; the
tenant-expiry side effect is performed only by the dedicated
POST /api/properties/:id/update-tenants-vacant endpoint (which the client
invokes after a vacant update), after which every tenant of the caller
referencing the property has status "expired". -/
theorem tenant_expiry_via_dedicated_endpoint
    (userId pid : Nat) (b : PropertyBody) (db : DB) :
    (putProperty userId pid b db).2.tenants = db.tenants ∧
    ∀ t ∈ (updateTenantsVacant userId pid db).2.tenants,
      t.property_id = some pid → t.user_id = userId → t.status = "expired" := by
  constructor
  · show (putProperty userId pid b db).2.tenants = db.tenants
    unfold putProperty
    dsimp only
    split <;> rfl
  · intro t ht hp hu
    unfold updateTenantsVacant at ht
    dsimp only at ht
    obtain ⟨t0, ht0, rfl⟩ := List.mem_map.mp ht
    by_cases hc : (t0.property_id == some pid && t0.user_id == userId) = true
    · simp [hc]
    · simp only [hc, if_neg, Bool.false_eq_true, if_false] at hp hu ⊢
      exact absurd (by simp [hp, hu]) hc

/-- C3 amended witness: the dedicated endpoint expires the tenant that
the plain vacant update left active. -/
theorem tenant_expiry_via_dedicated_endpoint_witness :
    (putProperty 1 1 vacantBody db0).2.tenants = db0.tenants ∧
    ∀ t ∈ (updateTenantsVacant 1 1 db0).2.tenants,
      t.property_id = some 1 → t.user_id = 1 → t.status = "expired" :=
  tenant_expiry_via_dedicated_endpoint 1 1 vacantBody db0

/-- C4: for two distinct accounts, fetching, updating or deleting a
property owned by the other account produces, per endpoint, exactly the
404 response produced when no such row exists at all — never a distinct
forbidden signal. -/
theorem cross_account_access_indistinguishable_from_missing
    (a b pid : Nat) (body : PropertyBody) (dbO dbN : DB)
    (hab : a ≠ b)
    (hOwned : ∀ p ∈ dbO.properties, p.id = pid → p.user_id = b)
    (hExists : ∃ p ∈ dbO.properties, p.id = pid)
    (hNone : ∀ p ∈ dbN.properties, p.id ≠ pid) :
    getPropertyById a pid dbO = jsonErr 404 "Property not found" ∧
    getPropertyById a pid dbN = jsonErr 404 "Property not found" ∧
    putProperty a pid body dbO = (jsonErr 404 "Property not found or access denied", dbO) ∧
    putProperty a pid body dbN = (jsonErr 404 "Property not found or access denied", dbN) ∧
    deleteProperty a pid dbO = (jsonErr 404 "Property not found or access denied", dbO) ∧
    deleteProperty a pid dbN = (jsonErr 404 "Property not found or access denied", dbN) := by
  have hO : ∀ p ∈ dbO.properties, ¬ (propertyMatches pid a p = true) := by
    intro p hp hm
    simp only [propertyMatches, Bool.and_eq_true, beq_iff_eq] at hm
    exact hab (hm.2.symm.trans (hOwned p hp hm.1))
  have hN : ∀ p ∈ dbN.properties, ¬ (propertyMatches pid a p = true) := by
    intro p hp hm
    simp only [propertyMatches, Bool.and_eq_true, beq_iff_eq] at hm
    exact hNone p hp hm.1
  have hget : ∀ d : DB, (∀ p ∈ d.properties, ¬ (propertyMatches pid a p = true)) →
      getPropertyById a pid d = jsonErr 404 "Property not found" := by
    intro d hd
    unfold getPropertyById
    rw [List.find?_eq_none.mpr hd]
  have hput : ∀ d : DB, (∀ p ∈ d.properties, ¬ (propertyMatches pid a p = true)) →
      putProperty a pid body d = (jsonErr 404 "Property not found or access denied", d) := by
    intro d hd
    unfold putProperty
    rw [List.countP_eq_zero.mpr hd]
    rfl
  have hdel : ∀ d : DB, (∀ p ∈ d.properties, ¬ (propertyMatches pid a p = true)) →
      deleteProperty a pid d = (jsonErr 404 "Property not found or access denied", d) := by
    intro d hd
    unfold deleteProperty
    rw [List.countP_eq_zero.mpr hd]
    rfl
  exact ⟨hget dbO hO, hget dbN hN, hput dbO hO, hput dbN hN, hdel dbO hO, hdel dbN hN⟩

/-- C4 witness: account 2 touching account 1's property 1 gets the same
404 responses as touching a property that does not exist. -/
theorem cross_account_access_indistinguishable_from_missing_witness :
    getPropertyById 2 1 db0 = jsonErr 404 "Property not found" ∧
    getPropertyById 2 1 dbEmpty = jsonErr 404 "Property not found" ∧
    putProperty 2 1 vacantBody db0 = (jsonErr 404 "Property not found or access denied", db0) ∧
    putProperty 2 1 vacantBody dbEmpty =
      (jsonErr 404 "Property not found or access denied", dbEmpty) ∧
    deleteProperty 2 1 db0 = (jsonErr 404 "Property not found or access denied", db0) ∧
    deleteProperty 2 1 dbEmpty = (jsonErr 404 "Property not found or access denied", dbEmpty) :=
  cross_account_access_indistinguishable_from_missing 2 1 1 vacantBody db0 dbEmpty
    (by decide) (by decide) ⟨villaA, by decide, by decide⟩ (by decide)

/-- C6: deleting an owned maintenance request whose status is not
"completed" is rejected with a 400 business error (distinct from the 404
not-found case) and the store is unchanged; deleting one in "completed"
status succeeds and the row count drops by exactly one. -/
theorem maintenance_delete_completed_guard
    (userId mid : Nat) (db : DB) (row : MaintenanceRequest)
    (huid : userId ≠ 0)
    (hfind : db.maintenance.find? (maintenanceMatches mid userId) = some row)
    (huniq : db.maintenance.countP (maintenanceMatches mid userId) = 1) :
    (row.status ≠ "completed" →
      maintenanceDelete userId mid db =
        (jsonErr 400 "Only completed maintenance requests can be deleted", db)) ∧
    (row.status = "completed" →
      (maintenanceDelete userId mid db).1 = jsonMsg "Maintenance request deleted successfully" ∧
      (maintenanceDelete userId mid db).2.maintenance.length + 1 = db.maintenance.length) := by
  have huid' : (userId == 0) = false := by
    simpa using huid
  constructor
  · intro hst
    unfold maintenanceDelete
    rw [huid']
    simp only [Bool.false_eq_true, if_false, hfind]
    have : (row.status != "completed") = true := by simpa using hst
    rw [this]
    simp
  · intro hst
    have hlenrem :
        (db.maintenance.filter (fun m => !(maintenanceMatches mid userId m))).length + 1 =
          db.maintenance.length := by
      have h1 := List.length_eq_length_filter_add (l := db.maintenance)
        (maintenanceMatches mid userId)
      have h2 : (db.maintenance.filter (maintenanceMatches mid userId)).length = 1 := by
        rw [← List.countP_eq_length_filter]
        exact huniq
      omega
    unfold maintenanceDelete
    rw [huid']
    simp only [Bool.false_eq_true, if_false, hfind]
    have hstb : (row.status != "completed") = false := by simp [hst]
    rw [hstb]
    simp only [Bool.false_eq_true, if_false, huniq]
    exact ⟨rfl, hlenrem⟩

/-- C6 witness: account 1's pending request 1 cannot be deleted and the
store keeps it; the completed variant is deleted, dropping the count from
one to zero. -/
theorem maintenance_delete_completed_guard_witness :
    maintenanceDelete 1 1 dbPending =
      (jsonErr 400 "Only completed maintenance requests can be deleted", dbPending) ∧
    ((maintenanceDelete 1 1 dbCompleted).1 = jsonMsg "Maintenance request deleted successfully" ∧
     (maintenanceDelete 1 1 dbCompleted).2.maintenance.length + 1 =
       dbCompleted.maintenance.length) :=
  ⟨(maintenance_delete_completed_guard 1 1 dbPending mrPending (by decide) (by decide)
      (by decide)).1 (by decide),
   (maintenance_delete_completed_guard 1 1 dbCompleted mrCompleted (by decide) (by decide)
      (by decide)).2 (by decide)⟩

/-- Helper: the rent-tracking create handler on the fully successful
path — validation passes and both ownership lookups succeed — appends the
rent-tracking row and the correlated financial record and answers with the
financial rowid. -/
theorem rtCreate_success
    (userId : Nat) (b : RentBody) (dateOk : String → Bool) (db : DB)
    (pid tid : Nat) (ta pa : Int)
    (hok : rtRequiredOk b = true)
    (hpid : b.property_id = some pid) (htid : b.tenant_id = some tid)
    (hta : b.total_amount = some ta) (hpa : b.payment_amount = some pa)
    (hta0 : 0 < ta) (hpa0 : 0 < pa) (hle : pa ≤ ta)
    (hd1 : dateOk (b.due_date.getD "") = true)
    (hd2 : dateOk (b.payment_date.getD "") = true)
    (hprop : (db.properties.find? (propertyMatches pid userId)).isSome = true)
    (hten : (db.tenants.find? (tenantMatches tid userId)).isSome = true) :
    rtCreate userId b dateOk db =
      (jsonIdMsg db.nextFinancialId "Rent payment tracked successfully",
       { db with
          rentTracking := db.rentTracking ++ [mkRentEntry userId b db]
          financial := db.financial ++ [mkRentFinancialRecord userId b db]
          nextRentTrackingId := db.nextRentTrackingId + 1
          nextFinancialId := db.nextFinancialId + 1 }) := by
  obtain ⟨p, hp⟩ := Option.isSome_iff_exists.mp hprop
  obtain ⟨t, ht⟩ := Option.isSome_iff_exists.mp hten
  unfold rtCreate
  simp only [hok, Bool.not_true, Bool.false_eq_true, if_false, hpid, htid, hta, hpa,
    Option.getD_some, hd1, hd2, Bool.and_self, Bool.not_true]
  rw [if_neg (by omega), if_neg (by omega), if_neg (by omega)]
  simp only [Bool.false_eq_true, if_false, hp, ht]

/-- C1: a rent-tracking create or update whose payment amount exceeds the
total amount is answered 400 with the store untouched; when the request
is otherwise well-formed (required fields truthy, both amounts positive)
the error message is exactly "Payment amount cannot exceed total amount". -/
theorem rent_payment_exceeding_total_rejected
    (userId rid : Nat) (b : RentBody) (dateOk : String → Bool) (db : DB) (ta pa : Int)
    (hta : b.total_amount = some ta) (hpa : b.payment_amount = some pa) (hgt : ta < pa) :
    ((rtCreate userId b dateOk db).1.status = 400 ∧
     (rtCreate userId b dateOk db).2 = db ∧
     (rtUpdate userId rid b dateOk db).1.status = 400 ∧
     (rtUpdate userId rid b dateOk db).2 = db) ∧
    (rtRequiredOk b = true → 0 < ta → 0 < pa →
      rtCreate userId b dateOk db =
        (jsonErr 400 "Payment amount cannot exceed total amount", db) ∧
      rtUpdate userId rid b dateOk db =
        (jsonErr 400 "Payment amount cannot exceed total amount", db)) := by
  constructor
  · have hcr : (rtCreate userId b dateOk db).1.status = 400 ∧
        (rtCreate userId b dateOk db).2 = db := by
      unfold rtCreate
      simp only [hta, hpa, Option.getD_some]
      by_cases hok : rtRequiredOk b = true
      · simp only [hok, Bool.not_true, Bool.false_eq_true, if_false]
        by_cases h1 : ta ≤ 0
        · rw [if_pos h1]; exact ⟨rfl, rfl⟩
        · rw [if_neg h1]
          by_cases h2 : pa ≤ 0
          · rw [if_pos h2]; exact ⟨rfl, rfl⟩
          · rw [if_neg h2, if_pos hgt]; exact ⟨rfl, rfl⟩
      · simp only [Bool.not_eq_true] at hok
        simp only [hok, Bool.not_false, if_true]
        exact ⟨rfl, trivial⟩
    have hup : (rtUpdate userId rid b dateOk db).1.status = 400 ∧
        (rtUpdate userId rid b dateOk db).2 = db := by
      unfold rtUpdate
      simp only [hta, hpa, Option.getD_some]
      by_cases hok : rtRequiredOk b = true
      · simp only [hok, Bool.not_true, Bool.false_eq_true, if_false]
        by_cases h1 : ta ≤ 0
        · rw [if_pos h1]; exact ⟨rfl, rfl⟩
        · rw [if_neg h1]
          by_cases h2 : pa ≤ 0
          · rw [if_pos h2]; exact ⟨rfl, rfl⟩
          · rw [if_neg h2, if_pos hgt]; exact ⟨rfl, rfl⟩
      · simp only [Bool.not_eq_true] at hok
        simp only [hok, Bool.not_false, if_true]
        exact ⟨rfl, trivial⟩
    exact ⟨hcr.1, hcr.2, hup.1, hup.2⟩
  · intro hok h1 h2
    constructor
    · unfold rtCreate
      simp only [hok, Bool.not_true, Bool.false_eq_true, if_false, hta, hpa,
        Option.getD_some]
      rw [if_neg (by omega), if_neg (by omega), if_pos hgt]
    · unfold rtUpdate
      simp only [hok, Bool.not_true, Bool.false_eq_true, if_false, hta, hpa,
        Option.getD_some]
      rw [if_neg (by omega), if_neg (by omega), if_pos hgt]

/-- C1 witness: end-to-end scenario 3 (total 1000, payment 1200) is
rejected with the exact message by both the create and update handlers,
and no rent-tracking or financial row is written. -/
theorem rent_payment_exceeding_total_rejected_witness :
    ((rtCreate 1 rentBody1200 (fun _ => true) db0).1.status = 400 ∧
     (rtCreate 1 rentBody1200 (fun _ => true) db0).2 = db0 ∧
     (rtUpdate 1 1 rentBody1200 (fun _ => true) db0).1.status = 400 ∧
     (rtUpdate 1 1 rentBody1200 (fun _ => true) db0).2 = db0) ∧
    (rtCreate 1 rentBody1200 (fun _ => true) db0 =
       (jsonErr 400 "Payment amount cannot exceed total amount", db0) ∧
     rtUpdate 1 1 rentBody1200 (fun _ => true) db0 =
       (jsonErr 400 "Payment amount cannot exceed total amount", db0)) := by
  have h := rent_payment_exceeding_total_rejected 1 1 rentBody1200 (fun _ => true) db0
    1000 1200 (by decide) (by decide) (by decide)
  exact ⟨h.1, h.2 (by decide) (by decide) (by decide)⟩

/-- C2: a fully successful rent-tracking create inserts a correlated
financial record for the same account, property and tenant, of type
"partial_rent" when the payment method is "partial" and "rent" otherwise,
with amount equal to the payment amount and a description combining the
capitalized method with the rent month. -/
theorem rent_create_inserts_correlated_financial_record
    (userId : Nat) (b : RentBody) (dateOk : String → Bool) (db : DB)
    (pid tid : Nat) (ta pa : Int) (m mon : String)
    (hok : rtRequiredOk b = true)
    (hpid : b.property_id = some pid) (htid : b.tenant_id = some tid)
    (hta : b.total_amount = some ta) (hpa : b.payment_amount = some pa)
    (hm : b.payment_method = some m) (hmon : b.rent_month = some mon)
    (hta0 : 0 < ta) (hpa0 : 0 < pa) (hle : pa ≤ ta)
    (hd1 : dateOk (b.due_date.getD "") = true)
    (hd2 : dateOk (b.payment_date.getD "") = true)
    (hprop : (db.properties.find? (propertyMatches pid userId)).isSome = true)
    (hten : (db.tenants.find? (tenantMatches tid userId)).isSome = true) :
    (rtCreate userId b dateOk db).1 =
      jsonIdMsg db.nextFinancialId "Rent payment tracked successfully" ∧
    ∃ fr : FinancialRecord,
      (rtCreate userId b dateOk db).2.financial = db.financial ++ [fr] ∧
      fr.user_id = userId ∧ fr.property_id = some pid ∧ fr.tenant_id = some tid ∧
      fr.ftype = (if m == "partial" then "partial_rent" else "rent") ∧
      fr.amount = pa ∧
      fr.description = capitalizeFirst m ++ " payment for " ++ mon := by
  have h := rtCreate_success userId b dateOk db pid tid ta pa hok hpid htid hta hpa
    hta0 hpa0 hle hd1 hd2 hprop hten
  rw [h]
  refine ⟨rfl, mkRentFinancialRecord userId b db, rfl, rfl, ?_, ?_, ?_, ?_, ?_⟩
  · simp [mkRentFinancialRecord, hpid]
  · simp [mkRentFinancialRecord, htid]
  · simp [mkRentFinancialRecord, hm]
  · simp [mkRentFinancialRecord, hpa]
  · simp [mkRentFinancialRecord, hm, hmon]

/-- C2 witness: end-to-end scenario 4 — a valid partial payment of 400
over total 1000 yields a financial record of type "partial_rent" with
amount 400 and description "Partial payment for 2024-01". -/
theorem rent_create_inserts_correlated_financial_record_witness :
    (rtCreate 1 rentBodyPartial (fun _ => true) db0).1 =
      jsonIdMsg db0.nextFinancialId "Rent payment tracked successfully" ∧
    ∃ fr : FinancialRecord,
      (rtCreate 1 rentBodyPartial (fun _ => true) db0).2.financial = db0.financial ++ [fr] ∧
      fr.user_id = 1 ∧ fr.property_id = some 1 ∧ fr.tenant_id = some 1 ∧
      fr.ftype = (if "partial" == "partial" then "partial_rent" else "rent") ∧
      fr.amount = 400 ∧
      fr.description = capitalizeFirst "partial" ++ " payment for " ++ "2024-01" :=
  rent_create_inserts_correlated_financial_record 1 rentBodyPartial (fun _ => true) db0
    1 1 1000 400 "partial" "2024-01" (by decide) (by decide) (by decide) (by decide)
    (by decide) (by decide) (by decide) (by decide) (by decide) (by decide) (by decide)
    (by decide) (by decide) (by decide)

/-- C10: the id of the 200 response of a successful rent-tracking create
is the rowid of the financial record inserted second, not the id of the
new rent-tracking row (which receives the rent-tracking rowid); when
those counters differ and the financial rowid is fresh among the
rent-tracking rows, fetching GET /api/rent-tracking/:id with the returned
id yields 404, so the caller cannot recover the new rent-tracking row. -/
theorem rent_create_response_id_is_financial_row_id
    (userId : Nat) (b : RentBody) (dateOk : String → Bool) (db : DB)
    (pid tid : Nat) (ta pa : Int)
    (hok : rtRequiredOk b = true)
    (hpid : b.property_id = some pid) (htid : b.tenant_id = some tid)
    (hta : b.total_amount = some ta) (hpa : b.payment_amount = some pa)
    (hta0 : 0 < ta) (hpa0 : 0 < pa) (hle : pa ≤ ta)
    (hd1 : dateOk (b.due_date.getD "") = true)
    (hd2 : dateOk (b.payment_date.getD "") = true)
    (hprop : (db.properties.find? (propertyMatches pid userId)).isSome = true)
    (hten : (db.tenants.find? (tenantMatches tid userId)).isSome = true)
    (hfresh : ∀ r ∈ db.rentTracking, r.id ≠ db.nextFinancialId)
    (hne : db.nextFinancialId ≠ db.nextRentTrackingId) :
    (rtCreate userId b dateOk db).1.id = some db.nextFinancialId ∧
    (rtCreate userId b dateOk db).2.financial =
      db.financial ++ [mkRentFinancialRecord userId b db] ∧
    (mkRentFinancialRecord userId b db).id = db.nextFinancialId ∧
    (rtCreate userId b dateOk db).2.rentTracking =
      db.rentTracking ++ [mkRentEntry userId b db] ∧
    (mkRentEntry userId b db).id = db.nextRentTrackingId ∧
    rtGet userId db.nextFinancialId (rtCreate userId b dateOk db).2 =
      jsonErr 404 "Rent tracking record not found or access denied" := by
  have h := rtCreate_success userId b dateOk db pid tid ta pa hok hpid htid hta hpa
    hta0 hpa0 hle hd1 hd2 hprop hten
  rw [h]
  refine ⟨rfl, rfl, rfl, rfl, rfl, ?_⟩
  unfold rtGet
  have hnone : ∀ r ∈ db.rentTracking ++ [mkRentEntry userId b db],
      ¬ (rentMatches db.nextFinancialId userId r = true) := by
    intro r hr hm
    simp only [rentMatches, Bool.and_eq_true, beq_iff_eq] at hm
    rcases List.mem_append.mp hr with hold | hnew
    · exact hfresh r hold hm.1
    · have : r = mkRentEntry userId b db := by simpa using hnew
      rw [this] at hm
      exact hne (hm.1.symm.trans rfl)
  rw [List.find?_eq_none.mpr hnone]

/-- C10 witness: with financial counter 7 and rent-tracking counter 3,
the create response id is 7 while the new rent row has id 3, and fetching
rent-tracking id 7 afterwards yields 404. -/
theorem rent_create_response_id_is_financial_row_id_witness :
    (rtCreate 1 rentBodyPartial (fun _ => true) db0).1.id = some db0.nextFinancialId ∧
    (rtCreate 1 rentBodyPartial (fun _ => true) db0).2.financial =
      db0.financial ++ [mkRentFinancialRecord 1 rentBodyPartial db0] ∧
    (mkRentFinancialRecord 1 rentBodyPartial db0).id = db0.nextFinancialId ∧
    (rtCreate 1 rentBodyPartial (fun _ => true) db0).2.rentTracking =
      db0.rentTracking ++ [mkRentEntry 1 rentBodyPartial db0] ∧
    (mkRentEntry 1 rentBodyPartial db0).id = db0.nextRentTrackingId ∧
    rtGet 1 db0.nextFinancialId (rtCreate 1 rentBodyPartial (fun _ => true) db0).2 =
      jsonErr 404 "Rent tracking record not found or access denied" :=
  rent_create_response_id_is_financial_row_id 1 rentBodyPartial (fun _ => true) db0
    1 1 1000 400 (by decide) (by decide) (by decide) (by decide) (by decide)
    (by decide) (by decide) (by decide) (by decide) (by decide) (by decide)
    (by decide) (by decide) (by decide)

/-- Helper: every row produced by the cheque reinsertion belongs to the
given tenant. -/
theorem insertChequeRows_tenant_id (tid : Nat) (l : List ChequeInput) :
    ∀ (i nid : Nat) (f : Nat → Bool),
      ∀ c ∈ (insertChequeRows tid l i nid f).1, c.tenant_id = tid := by
  induction l with
  | nil =>
    intro i nid f c hc
    simp [insertChequeRows] at hc
  | cons a rest ih =>
    intro i nid f c hc
    unfold insertChequeRows at hc
    by_cases hf : f i = true
    · rw [if_pos hf] at hc
      exact ih (i + 1) nid f c hc
    · rw [if_neg hf] at hc
      rcases List.mem_cons.mp hc with hhd | htl
      · rw [hhd]
      · exact ih (i + 1) (nid + 1) f c htl

/-- Helper: the cheque reinsertion inserts at most one row per supplied
cheque. -/
theorem insertChequeRows_length_le (tid : Nat) (l : List ChequeInput) :
    ∀ (i nid : Nat) (f : Nat → Bool),
      (insertChequeRows tid l i nid f).1.length ≤ l.length := by
  induction l with
  | nil =>
    intro i nid f
    simp [insertChequeRows]
  | cons a rest ih =>
    intro i nid f
    unfold insertChequeRows
    by_cases hf : f i = true
    · rw [if_pos hf]
      exact Nat.le_succ_of_le (ih (i + 1) nid f)
    · rw [if_neg hf]
      simpa using ih (i + 1) (nid + 1) f

/-- Helper: with no induced insert failure the cheque reinsertion inserts
exactly one row per supplied cheque. -/
theorem insertChequeRows_length_eq (tid : Nat) (l : List ChequeInput) :
    ∀ (i nid : Nat) (f : Nat → Bool), (∀ j, f j = false) →
      (insertChequeRows tid l i nid f).1.length = l.length := by
  induction l with
  | nil =>
    intro i nid f _
    simp [insertChequeRows]
  | cons a rest ih =>
    intro i nid f hf
    unfold insertChequeRows
    rw [if_neg (by simp [hf i])]
    simpa using ih (i + 1) (nid + 1) f hf

/-- C7: a tenant update that passes validation, matches an owned tenant
row and supplies a cheque list of length N first removes every existing
cheque row of that tenant and reinserts the supplied list: afterwards at
most N cheque rows exist for the tenant (an induced partial-insert
failure is only logged and leaves fewer), and exactly N when no insert
fails; the response reports success either way. -/
theorem tenant_update_replaces_cheque_set
    (userId tid : Nat) (b : TenantBody) (l : List ChequeInput)
    (failAt : Nat → Bool) (db : DB)
    (hreq : (truthyStr b.first_name && truthyStr b.last_name && truthyStr b.email) = true)
    (hem : emailMatches (b.email.getD "") = true)
    (hch : b.cheques = some l)
    (hmatch : db.tenants.countP (tenantMatches tid userId) ≠ 0) :
    (tenantPut userId tid b failAt db).1 = jsonMsg "Tenant updated successfully with cheques" ∧
    ((tenantPut userId tid b failAt db).2.cheques.filter
        (fun c => c.tenant_id == tid)).length ≤ l.length ∧
    ((∀ j, failAt j = false) →
      ((tenantPut userId tid b failAt db).2.cheques.filter
          (fun c => c.tenant_id == tid)).length = l.length) := by
  have hbeq : (db.tenants.countP (tenantMatches tid userId) == 0) = false :=
    beq_eq_false_iff_ne.mpr hmatch
  have hred : tenantPut userId tid b failAt db =
      (jsonMsg "Tenant updated successfully with cheques",
       { db with
          tenants := db.tenants.map
            (fun t => if tenantMatches tid userId t then applyTenantUpdate b t else t)
          cheques := db.cheques.filter (fun c => !(c.tenant_id == tid)) ++
            (insertChequeRows tid l 0 db.nextChequeId failAt).1
          nextChequeId := (insertChequeRows tid l 0 db.nextChequeId failAt).2 }) := by
    unfold tenantPut
    simp only [hreq, Bool.not_true, Bool.false_eq_true, if_false, hem, hbeq, hch]
  have hkept : (db.cheques.filter (fun c => !(c.tenant_id == tid))).filter
      (fun c => c.tenant_id == tid) = [] := by
    apply List.filter_eq_nil_iff.mpr
    intro c hc
    have := (List.mem_filter.mp hc).2
    simp only [Bool.not_eq_true'] at this
    simp [this]
  have hins : ((insertChequeRows tid l 0 db.nextChequeId failAt).1).filter
      (fun c => c.tenant_id == tid) = (insertChequeRows tid l 0 db.nextChequeId failAt).1 := by
    apply List.filter_eq_self.mpr
    intro c hc
    have := insertChequeRows_tenant_id tid l 0 db.nextChequeId failAt c hc
    simp [this]
  have hfilter : ((tenantPut userId tid b failAt db).2.cheques.filter
      (fun c => c.tenant_id == tid)) = (insertChequeRows tid l 0 db.nextChequeId failAt).1 := by
    rw [hred]
    show ((db.cheques.filter (fun c => !(c.tenant_id == tid)) ++
      (insertChequeRows tid l 0 db.nextChequeId failAt).1).filter
        (fun c => c.tenant_id == tid)) = _
    rw [List.filter_append, hkept, hins]
    simp
  refine ⟨by rw [hred], ?_, ?_⟩
  · rw [hfilter]
    exact insertChequeRows_length_le tid l 0 db.nextChequeId failAt
  · intro hf
    rw [hfilter]
    exact insertChequeRows_length_eq tid l 0 db.nextChequeId failAt hf

/-- C7 witness: replacing tenant 1's single existing cheque with a
two-cheque list (no induced failure) leaves exactly two cheque rows for
the tenant. -/
theorem tenant_update_replaces_cheque_set_witness :
    (tenantPut 1 1 tenantBodyW (fun _ => false) dbCh).1 =
      jsonMsg "Tenant updated successfully with cheques" ∧
    ((tenantPut 1 1 tenantBodyW (fun _ => false) dbCh).2.cheques.filter
        (fun c => c.tenant_id == 1)).length ≤ ([chq1, chq2] : List ChequeInput).length ∧
    ((tenantPut 1 1 tenantBodyW (fun _ => false) dbCh).2.cheques.filter
        (fun c => c.tenant_id == 1)).length = ([chq1, chq2] : List ChequeInput).length := by
  have h := tenant_update_replaces_cheque_set 1 1 tenantBodyW [chq1, chq2]
    (fun _ => false) dbCh (by decide) (by decide) (by decide) (by decide)
  exact ⟨h.1, h.2.1, h.2.2 (fun j => rfl)⟩

/-- Helper: the rendered header cell at index 0 is the head of the row. -/
theorem headerAt_zero (hs : List String) :
    headerAt hs 0 = (hs.head?).getD "undefined" := by
  cases hs <;> simp [headerAt]

/-- Helper: rendered header cells shift under dropping the first cell. -/
theorem headerAt_succ (hs : List String) (i : Nat) :
    headerAt hs (i + 1) = headerAt (hs.drop 1) i := by
  cases hs <;> simp [headerAt]

/-- Helper: whatever the header-validation loop reports is a genuine
mismatch: an in-range column index together with the expected cell and
the differing actual cell. -/
theorem findHeaderMismatch_some_spec :
    ∀ (es hs : List String) (j : Nat) (e g : String),
      findHeaderMismatch es hs = some (j, e, g) →
      j < es.length ∧ e = es.getD j "" ∧ g = headerAt hs j ∧ g ≠ e := by
  intro es
  induction es with
  | nil =>
    intro hs j e g h
    simp [findHeaderMismatch] at h
  | cons e0 rest ih =>
    intro hs j e g h
    unfold findHeaderMismatch at h
    by_cases hne : (((hs.head?).getD "undefined") != e0) = true
    · rw [if_pos hne] at h
      obtain ⟨rfl, rfl, rfl⟩ : j = 0 ∧ e = e0 ∧ g = (hs.head?).getD "undefined" := by
        simpa using h.symm
      refine ⟨Nat.succ_pos _, rfl, (headerAt_zero hs).symm, ?_⟩
      exact bne_iff_ne.mp hne
    · rw [if_neg hne] at h
      cases hfm : findHeaderMismatch rest (hs.drop 1) with
      | none =>
        rw [hfm] at h
        simp at h
      | some trip =>
        obtain ⟨ja, ea, ga⟩ := trip
        rw [hfm] at h
        obtain ⟨rfl, rfl, rfl⟩ : j = ja + 1 ∧ e = ea ∧ g = ga := by
          simpa using h.symm
        obtain ⟨h1, h2, h3, h4⟩ := ih (hs.drop 1) ja e g hfm
        exact ⟨Nat.succ_lt_succ h1, h2, h3.trans (headerAt_succ hs ja).symm, h4⟩

/-- Helper: a mismatch anywhere in range makes the header-validation
loop report one. -/
theorem findHeaderMismatch_isSome :
    ∀ (es hs : List String) (i : Nat), i < es.length →
      headerAt hs i ≠ es.getD i "" → (findHeaderMismatch es hs).isSome = true := by
  intro es
  induction es with
  | nil =>
    intro hs i hi _
    exact absurd hi (by simp)
  | cons e0 rest ih =>
    intro hs i hi hne
    unfold findHeaderMismatch
    by_cases hb : (((hs.head?).getD "undefined") != e0) = true
    · rw [if_pos hb]
      rfl
    · rw [if_neg hb]
      rw [Option.isSome_map']
      cases i with
      | zero =>
        exfalso
        apply hne
        rw [headerAt_zero hs]
        have : ((hs.head?).getD "undefined") = e0 := by
          simpa using hb
        simpa using this
      | succ i' =>
        have hi' : i' < rest.length := Nat.lt_of_succ_lt_succ hi
        have hne' : headerAt (hs.drop 1) i' ≠ rest.getD i' "" := by
          rw [← headerAt_succ hs i']
          simpa using hne
        exact ih (hs.drop 1) i' hi' hne'

/-- C8: each bulk spreadsheet import (properties, tenants, combined)
whose header row differs anywhere in range from its expected ordinal
column list is rejected with a 400 error naming the 1-based column index
and the expected versus actual header cell, and the store is unchanged —
no data row is inserted. -/
theorem bulk_upload_header_mismatch_rejected
    (userId : Nat) (db : DB)
    (sheetP sheetT sheetC : List (List String))
    (hlP : 2 ≤ sheetP.length)
    (iP : Nat) (hiP : iP < expectedPropertyColumns.length)
    (hneP : headerAt (sheetP.headD []) iP ≠ expectedPropertyColumns.getD iP "")
    (hlT : 2 ≤ sheetT.length)
    (iT : Nat) (hiT : iT < expectedTenantColumns.length)
    (hneT : headerAt (sheetT.headD []) iT ≠ expectedTenantColumns.getD iT "")
    (hlC : 2 ≤ sheetC.length)
    (iC : Nat) (hiC : iC < expectedCombinedColumns.length)
    (hneC : headerAt (sheetC.headD []) iC ≠ expectedCombinedColumns.getD iC "") :
    ((bulkUploadProperties userId sheetP db).2 = db ∧
     (bulkUploadProperties userId sheetP db).1.status = 400 ∧
     (∃ j, j < expectedPropertyColumns.length ∧
       headerAt (sheetP.headD []) j ≠ expectedPropertyColumns.getD j "" ∧
       (bulkUploadProperties userId sheetP db).1 =
         headerErrResp j (expectedPropertyColumns.getD j "") (headerAt (sheetP.headD []) j))) ∧
    ((bulkUploadTenants userId sheetT db).2 = db ∧
     (bulkUploadTenants userId sheetT db).1.status = 400 ∧
     (∃ j, j < expectedTenantColumns.length ∧
       headerAt (sheetT.headD []) j ≠ expectedTenantColumns.getD j "" ∧
       (bulkUploadTenants userId sheetT db).1 =
         headerErrResp j (expectedTenantColumns.getD j "") (headerAt (sheetT.headD []) j))) ∧
    ((bulkUploadCombined userId sheetC db).2 = db ∧
     (bulkUploadCombined userId sheetC db).1.status = 400 ∧
     (∃ j, j < expectedCombinedColumns.length ∧
       headerAt (sheetC.headD []) j ≠ expectedCombinedColumns.getD j "" ∧
       (bulkUploadCombined userId sheetC db).1 =
         headerErrResp j (expectedCombinedColumns.getD j "") (headerAt (sheetC.headD []) j))) := by
  have hP := findHeaderMismatch_isSome expectedPropertyColumns (sheetP.headD []) iP hiP hneP
  obtain ⟨⟨jP, eP, gP⟩, hmP⟩ := Option.isSome_iff_exists.mp hP
  obtain ⟨hj1P, hj2P, hj3P, hj4P⟩ :=
    findHeaderMismatch_some_spec expectedPropertyColumns (sheetP.headD []) jP eP gP hmP
  have hT := findHeaderMismatch_isSome expectedTenantColumns (sheetT.headD []) iT hiT hneT
  obtain ⟨⟨jT, eT, gT⟩, hmT⟩ := Option.isSome_iff_exists.mp hT
  obtain ⟨hj1T, hj2T, hj3T, hj4T⟩ :=
    findHeaderMismatch_some_spec expectedTenantColumns (sheetT.headD []) jT eT gT hmT
  have hC := findHeaderMismatch_isSome expectedCombinedColumns (sheetC.headD []) iC hiC hneC
  obtain ⟨⟨jC, eC, gC⟩, hmC⟩ := Option.isSome_iff_exists.mp hC
  obtain ⟨hj1C, hj2C, hj3C, hj4C⟩ :=
    findHeaderMismatch_some_spec expectedCombinedColumns (sheetC.headD []) jC eC gC hmC
  have hredP : bulkUploadProperties userId sheetP db = (headerErrResp jP eP gP, db) := by
    unfold bulkUploadProperties
    rw [if_neg (by omega), hmP]
  have hredT : bulkUploadTenants userId sheetT db = (headerErrResp jT eT gT, db) := by
    unfold bulkUploadTenants
    rw [if_neg (by omega), hmT]
  have hredC : bulkUploadCombined userId sheetC db = (headerErrResp jC eC gC, db) := by
    unfold bulkUploadCombined
    rw [if_neg (by omega), hmC]
  refine ⟨⟨?_, ?_, jP, hj1P, ?_, ?_⟩, ⟨?_, ?_, jT, hj1T, ?_, ?_⟩, ⟨?_, ?_, jC, hj1C, ?_, ?_⟩⟩
  · rw [hredP]
  · rw [hredP]; rfl
  · rw [← hj3P, ← hj2P]
    exact hj4P
  · rw [hredP, ← hj2P, ← hj3P]
  · rw [hredT]
  · rw [hredT]; rfl
  · rw [← hj3T, ← hj2T]
    exact hj4T
  · rw [hredT, ← hj2T, ← hj3T]
  · rw [hredC]
  · rw [hredC]; rfl
  · rw [← hj3C, ← hj2C]
    exact hj4C
  · rw [hredC, ← hj2C, ← hj3C]

/-- C8 witness: sheets with a misnamed header cell (column 3 for
properties, column 1 for tenants, column 2 for combined) are rejected 400
naming the column and the store is untouched. -/
theorem bulk_upload_header_mismatch_rejected_witness :
    ((bulkUploadProperties 1 sheetBadP db0).2 = db0 ∧
     (bulkUploadProperties 1 sheetBadP db0).1.status = 400 ∧
     (∃ j, j < expectedPropertyColumns.length ∧
       headerAt (sheetBadP.headD []) j ≠ expectedPropertyColumns.getD j "" ∧
       (bulkUploadProperties 1 sheetBadP db0).1 =
         headerErrResp j (expectedPropertyColumns.getD j "")
           (headerAt (sheetBadP.headD []) j))) ∧
    ((bulkUploadTenants 1 sheetBadT db0).2 = db0 ∧
     (bulkUploadTenants 1 sheetBadT db0).1.status = 400 ∧
     (∃ j, j < expectedTenantColumns.length ∧
       headerAt (sheetBadT.headD []) j ≠ expectedTenantColumns.getD j "" ∧
       (bulkUploadTenants 1 sheetBadT db0).1 =
         headerErrResp j (expectedTenantColumns.getD j "")
           (headerAt (sheetBadT.headD []) j))) ∧
    ((bulkUploadCombined 1 sheetBadC db0).2 = db0 ∧
     (bulkUploadCombined 1 sheetBadC db0).1.status = 400 ∧
     (∃ j, j < expectedCombinedColumns.length ∧
       headerAt (sheetBadC.headD []) j ≠ expectedCombinedColumns.getD j "" ∧
       (bulkUploadCombined 1 sheetBadC db0).1 =
         headerErrResp j (expectedCombinedColumns.getD j "")
           (headerAt (sheetBadC.headD []) j))) :=
  bulk_upload_header_mismatch_rejected 1 db0 sheetBadP sheetBadT sheetBadC
    (by decide) 2 (by decide) (by decide)
    (by decide) 0 (by decide) (by decide)
    (by decide) 1 (by decide) (by decide)

end PropMgmt
